import Mathlib

/-!
Shallow embedding of the session persistence manager
(`src/src/session/manager.ts` of clawdbot-miyabi) and proofs about it.

The storage backend (DynamoDB) is modelled per the design contract (§6 of the
design document): a keyed attribute-map store with get/put/update/delete by
primary key, an atomic conditional update, queries against the two declared
secondary indexes, and a scan with a filter expression.  The store is a list
of attribute maps (`Item`); attribute absence is `Option.none`.  Time is an
explicit parameter (`nowMs`, epoch milliseconds), replacing `Date.now()`.

The type declarations of `src/session/types.ts` are not among the sources;
they are modelled from the design document (§3) where marked.  Crucially,
`PersistedSessionState` has a *nested* `metadata` property: `manager.ts`
itself accesses `state.metadata.startTime`, spreads `...state.metadata`, and
filters on `s.metadata.channelId`, which requires that property to exist on
the type.  Reads of an absent nested object (`state.metadata` being
`undefined` followed by a property access) are modelled as a thrown
`JsError.typeError`, i.e. an `Except.error` result.
-/

namespace SessionManager

/-- Modelled from the spec: the session status enum of `src/session/types.ts`
(absent from the sources); §4.2 and §9 fix the closed set
`PENDING, RUNNING, COMPLETED, FAILED, CANCELLED`. -/
inductive SessionStatus where
  | PENDING
  | RUNNING
  | COMPLETED
  | FAILED
  | CANCELLED
deriving DecidableEq, Repr

/-- Opaque θ-cycle progress payload (`thetaState`); this layer never inspects
it, so it is modelled as an uninterpreted string. -/
abbrev ThetaState := String

/-- Opaque auxiliary resume context (`context`); uninterpreted at this layer. -/
abbrev SessionContext := String

/-- Last recorded failure detail (`error`); uninterpreted at this layer. -/
abbrev SessionError := String

/-- Modelled from the spec: `SessionMetadata` of `src/session/types.ts` (§3 of
the design document).  `userId`, `guildId`, `channelId` are optional (queries
only require one of the first two to be present). -/
structure SessionMetadata where
  sessionId : String
  userId : Option String := none
  guildId : Option String := none
  channelId : Option String := none
  status : SessionStatus
  startTime : Nat
  lastUpdateTime : Nat
  expiresAt : Nat
deriving DecidableEq, Repr

/-- Modelled from the spec: `PersistedSessionState` of `src/session/types.ts`
(§3).  It embeds the metadata as a nested `metadata` property — `manager.ts`
reads `state.metadata.startTime` and spreads `...state.metadata`, so the
property is part of the declared type. -/
structure PersistedSessionState where
  metadata : SessionMetadata
  thetaState : ThetaState
  context : SessionContext
  error : Option SessionError := none
deriving DecidableEq, Repr

/-- Modelled from the spec: `SaveStateOptions` of `src/session/types.ts`
(`ttl` seconds, default 3600; `includeError` default off). -/
structure SaveStateOptions where
  ttl : Option Nat := none
  includeError : Bool := false
deriving DecidableEq, Repr

/-- Modelled from the spec: `PendingSessionsFilter` of `src/session/types.ts`
(all fields optional). -/
structure PendingSessionsFilter where
  userId : Option String := none
  guildId : Option String := none
  channelId : Option String := none
  status : Option SessionStatus := none
deriving DecidableEq, Repr

/-- A stored attribute map (one DynamoDB item).  An absent attribute is
`none`.  `saveState` writes the metadata fields at the *top level* of the item
(it spreads `...metadata` into the `PutCommand` item), so the nested
`metadata` attribute is never written by this code; it is present in the model
because `restoreState` and the `channelId` post-filter read it. -/
structure Item where
  sessionId : String
  userId : Option String := none
  guildId : Option String := none
  channelId : Option String := none
  status : Option SessionStatus := none
  startTime : Option Nat := none
  lastUpdateTime : Option Nat := none
  expiresAt : Option Nat := none
  thetaState : Option ThetaState := none
  context : Option SessionContext := none
  error : Option SessionError := none
  metadata : Option SessionMetadata := none
deriving DecidableEq, Repr

/-- The table: a list of items.  DynamoDB keeps at most one item per
`sessionId`; well-formedness hypotheses state this where a proof needs it. -/
abbrev Store := List Item

/-- A JavaScript runtime error surfaced by the manager's own code (reading a
property of `undefined`). -/
inductive JsError where
  | typeError
deriving DecidableEq, Repr

/-- A backend (DynamoDB) error as observed by the `catch` clause of
`updateStatusIf`, which discriminates on the error's `code` string. -/
structure DynamoError where
  code : String
deriving DecidableEq, Repr

/-- A backend request issued by `getPendingSessions`, recorded so that query
safety ("no unscoped scan") is statable. -/
inductive BackendOp where
  | query (indexName : String) (keyValue : String) (statusValue : SessionStatus)
  | scan
deriving DecidableEq, Repr

/-- Backend `GetCommand`: primary-key lookup. -/
def getItem (store : Store) (id : String) : Option Item :=
  store.find? (fun it => it.sessionId == id)

/-- Backend `PutCommand`: replace any item with the same key, else insert. -/
def putItem (store : Store) (item : Item) : Store :=
  store.filter (fun it => it.sessionId != item.sessionId) ++ [item]

/-- `deleteSession` (manager.ts 257–264): unconditional `DeleteCommand`,
idempotent. -/
def deleteSession (store : Store) (sessionId : String) : Store :=
  store.filter (fun it => it.sessionId != sessionId)

/-- Default TTL constant (manager.ts 29): one hour in seconds. -/
def DEFAULT_TTL_SECONDS : Nat := 60 * 60

/-- `saveState` (manager.ts 96–123).  Recomputes `expiresAt` as
`floor(now / 1000) + ttl`, overrides `sessionId` / `lastUpdateTime` /
`expiresAt` on the metadata, and puts an item whose attributes are the
metadata fields spread at the top level plus `thetaState`, `context` and
(only when `includeError`) `error`.  No nested `metadata` attribute is
written. -/
def saveState (store : Store) (nowMs : Nat) (sessionId : String)
    (state : PersistedSessionState) (options : SaveStateOptions) : Store :=
  let ttl := options.ttl.getD DEFAULT_TTL_SECONDS
  let expiresAt := nowMs / 1000 + ttl
  let md : SessionMetadata :=
    { state.metadata with
        sessionId := sessionId
        lastUpdateTime := nowMs
        expiresAt := expiresAt }
  putItem store
    { sessionId := md.sessionId
      userId := md.userId
      guildId := md.guildId
      channelId := md.channelId
      status := some md.status
      startTime := some md.startTime
      lastUpdateTime := some md.lastUpdateTime
      expiresAt := some md.expiresAt
      thetaState := some state.thetaState
      context := some state.context
      error := if options.includeError then state.error else none
      metadata := none }

/-- `RestoredSession` (types.ts, per §3).  The `state` field is the raw item:
the source performs an unchecked cast (`response.Item as unknown as
PersistedSessionState`), which at runtime is the identity on the attribute
map. -/
structure RestoredSession where
  state : Item
  resumable : Bool
  elapsed : Int
deriving DecidableEq, Repr

/-- `restoreState` (manager.ts 131–158).  Returns `(result, store)` on normal
completion.  For a present item it first evaluates
`state.metadata.startTime`; when the item has no nested `metadata` attribute
this is a property access on `undefined` and throws (`JsError.typeError`).
Otherwise: if `now > expiresAt * 1000` it deletes the record and returns
`null`, else it returns a `RestoredSession` with
`resumable = (status == RUNNING)` and `elapsed = now - startTime`. -/
def restoreState (store : Store) (nowMs : Nat) (sessionId : String) :
    Except JsError (Option RestoredSession × Store) :=
  match getItem store sessionId with
  | none => Except.ok (none, store)
  | some item =>
    match item.metadata with
    | none => Except.error JsError.typeError
    | some md =>
      let elapsed : Int := (nowMs : Int) - (md.startTime : Int)
      if nowMs > md.expiresAt * 1000 then
        Except.ok (none, deleteSession store sessionId)
      else
        Except.ok
          (some { state := item
                  resumable := decide (md.status = SessionStatus.RUNNING)
                  elapsed := elapsed },
           store)

/-- `updateStatus` (manager.ts 272–288): unconditional `UpdateCommand`
setting `status` and `lastUpdateTime`.  DynamoDB `UpdateItem` upserts: when no
item with the key exists, a new item holding only the key and the written
attributes is created. -/
def updateStatus (store : Store) (nowMs : Nat) (sessionId : String)
    (status : SessionStatus) : Store :=
  match getItem store sessionId with
  | some item =>
    putItem store { item with status := some status, lastUpdateTime := some nowMs }
  | none =>
    putItem store { sessionId := sessionId, status := some status, lastUpdateTime := some nowMs }

/-- The conditional `UpdateCommand` sent by `updateStatusIf` (manager.ts
306–322): applied atomically only when the stored `status` equals the
expected value; on a missing item or a differing status the backend raises
`ConditionalCheckFailedException`.  `fault` injects any other backend
failure (network, throttling, …) in place of executing the write. -/
def condUpdateStatus (fault : Option DynamoError) (store : Store) (nowMs : Nat)
    (sessionId : String) (newStatus expectedCurrentStatus : SessionStatus) :
    Except DynamoError Store :=
  match fault with
  | some e => Except.error e
  | none =>
    match getItem store sessionId with
    | none => Except.error { code := "ConditionalCheckFailedException" }
    | some item =>
      if item.status = some expectedCurrentStatus then
        Except.ok (putItem store
          { item with status := some newStatus, lastUpdateTime := some nowMs })
      else
        Except.error { code := "ConditionalCheckFailedException" }

/-- `updateStatusIf` (manager.ts 300–332): returns `true` on a successful
conditional write; catches the error and returns `false` when its `code` is
`"ConditionalCheckFailedException"`; re-raises anything else. -/
def updateStatusIf (fault : Option DynamoError) (store : Store) (nowMs : Nat)
    (sessionId : String) (newStatus expectedCurrentStatus : SessionStatus) :
    Except DynamoError (Bool × Store) :=
  match condUpdateStatus fault store nowMs sessionId newStatus expectedCurrentStatus with
  | Except.ok s => Except.ok (true, s)
  | Except.error e =>
    if e.code = "ConditionalCheckFailedException" then
      Except.ok (false, store)
    else
      Except.error e

/-- JavaScript truthiness of an optional string: `undefined` and `""` are
falsy.  `getPendingSessions` branches with bare `if (filter.userId)` style
tests. -/
def jsTruthy : Option String → Bool
  | none => false
  | some s => s != ""

/-- Backend query against the `UserIndex` GSI (`userId` hash, `status`
range): items carrying exactly those attribute values. -/
def queryUserIndex (store : Store) (u : String) (st : SessionStatus) : List Item :=
  store.filter (fun it => decide (it.userId = some u) && decide (it.status = some st))

/-- Backend query against the `GuildIndex` GSI (`guildId` hash, `status`
range). -/
def queryGuildIndex (store : Store) (g : String) (st : SessionStatus) : List Item :=
  store.filter (fun it => decide (it.guildId = some g) && decide (it.status = some st))

/-- `getPendingSessions` (manager.ts 169–250).  Guard: with neither
`userId` nor `guildId` truthy it returns `[]` issuing no backend request.
With `filter.status` supplied it queries the matching GSI and returns the
items unmodified (early return — no `channelId` post-filter).  Without
`status` it queries for `RUNNING` and, when `filter.channelId` is truthy,
filters in memory on `s.metadata.channelId`; stored items have no nested
`metadata` attribute, so that predicate throws on the first element
(`JsError.typeError`) whenever the queried list is non-empty.  The computed
`now` value is placed in the expression values but referenced by no
condition, so no expiry restriction is applied anywhere. -/
def getPendingSessions (store : Store) (nowMs : Nat) (f : PendingSessionsFilter) :
    Except JsError (List Item × List BackendOp) :=
  if jsTruthy f.userId = false ∧ jsTruthy f.guildId = false then
    Except.ok ([], [])
  else
    match f.status with
    | some st =>
      if jsTruthy f.userId then
        Except.ok (queryUserIndex store (f.userId.getD "") st,
          [BackendOp.query "UserIndex" (f.userId.getD "") st])
      else if jsTruthy f.guildId then
        Except.ok (queryGuildIndex store (f.guildId.getD "") st,
          [BackendOp.query "GuildIndex" (f.guildId.getD "") st])
      else
        Except.ok ([], [])
    | none =>
      let items :=
        if jsTruthy f.userId then
          queryUserIndex store (f.userId.getD "") SessionStatus.RUNNING
        else
          queryGuildIndex store (f.guildId.getD "") SessionStatus.RUNNING
      let ops :=
        if jsTruthy f.userId then
          [BackendOp.query "UserIndex" (f.userId.getD "") SessionStatus.RUNNING]
        else
          [BackendOp.query "GuildIndex" (f.guildId.getD "") SessionStatus.RUNNING]
      if jsTruthy f.channelId then
        if items.all (fun it => it.metadata.isSome) then
          Except.ok
            (items.filter (fun it =>
              match it.metadata with
              | some m => decide (m.channelId = f.channelId)
              | none => false),
             ops)
        else
          Except.error JsError.typeError
      else
        Except.ok (items, ops)

/-- The `ScanCommand` filter expression of `cleanupExpiredSessions`:
`#status = :status AND expiresAt < :now` with `:status = RUNNING`; a missing
`expiresAt` attribute makes the comparison false. -/
def isExpiredRunning (nowSec : Nat) (it : Item) : Bool :=
  decide (it.status = some SessionStatus.RUNNING) &&
    (match it.expiresAt with
     | some e => decide (e < nowSec)
     | none => false)

/-- `cleanupExpiredSessions` (manager.ts 344–371): scan for `RUNNING` items
with `expiresAt < floor(now / 1000)`, delete each hit whose `sessionId` is
truthy, return the number of hits. -/
def cleanupExpiredSessions (store : Store) (nowMs : Nat) : Nat × Store :=
  let nowSec := nowMs / 1000
  let expired := store.filter (isExpiredRunning nowSec)
  let final := expired.foldl
    (fun s it => if it.sessionId = "" then s else deleteSession s it.sessionId) store
  (expired.length, final)

/-- Sample full checkpoint used by concrete evaluations. -/
def sampleState : PersistedSessionState :=
  { metadata :=
      { sessionId := "orig"
        userId := some "u1"
        guildId := some "g1"
        channelId := some "c1"
        status := SessionStatus.RUNNING
        startTime := 500
        lastUpdateTime := 600
        expiresAt := 700 }
    thetaState := "theta-step-2"
    context := "ctx"
    error := none }

/-- Sample stored item in the `RUNNING` state. -/
def sampleRunningItem : Item :=
  { sessionId := "s1"
    userId := some "u1"
    guildId := some "g1"
    channelId := some "c1"
    status := some SessionStatus.RUNNING
    startTime := some 500
    lastUpdateTime := some 600
    expiresAt := some 700 }

/-- Sample store produced by one `saveState` call. -/
def sampleStore : Store := saveState [] 1000 "s1" sampleState {}

/-- Sample item that is `RUNNING` and already past its `expiresAt`. -/
def expiredRunningItem : Item :=
  { sessionId := "e1"
    userId := some "u1"
    guildId := some "g1"
    channelId := some "c1"
    status := some SessionStatus.RUNNING
    startTime := some 0
    expiresAt := some 10 }

/-- Sample item whose `expiresAt` lies in the future. -/
def futureItem : Item :=
  { sessionId := "f1"
    userId := some "u2"
    status := some SessionStatus.RUNNING
    startTime := some 0
    expiresAt := some 999999 }

/-- The key condition of the GSI query `getPendingSessions` issues for a
filter: equality on `userId` (preferred) or `guildId`, together with equality
on the requested status (`RUNNING` when the filter has none). -/
def keyMatches (f : PendingSessionsFilter) (it : Item) : Prop :=
  if jsTruthy f.userId then
    it.userId = f.userId ∧ it.status = some (f.status.getD SessionStatus.RUNNING)
  else
    it.guildId = f.guildId ∧ it.status = some (f.status.getD SessionStatus.RUNNING)

theorem sessionId_eq_of_getItem_some {store : Store} {id : String} {it : Item}
    (h : getItem store id = some it) : it.sessionId = id := by
  have hp := List.find?_some h
  simpa using hp

theorem getItem_putItem_self (s : Store) (item : Item) :
    getItem (putItem s item) item.sessionId = some item := by
  unfold getItem putItem
  rw [List.find?_append]
  have h1 : (s.filter (fun it => it.sessionId != item.sessionId)).find?
      (fun it => it.sessionId == item.sessionId) = none := by
    rw [List.find?_eq_none]
    intro x hx
    have hne := (List.mem_filter.mp hx).2
    simp only [bne_iff_ne, ne_eq] at hne
    simp [hne]
  rw [h1]
  simp [List.find?]

theorem getItem_deleteSession_self (s : Store) (id : String) :
    getItem (deleteSession s id) id = none := by
  unfold getItem deleteSession
  rw [List.find?_eq_none]
  intro x hx
  have hne := (List.mem_filter.mp hx).2
  simp only [bne_iff_ne, ne_eq] at hne
  simp [hne]

theorem updateStatusIf_success {store : Store} {id : String} {it : Item}
    (hget : getItem store id = some it) (t : Nat) (ns es : SessionStatus)
    (hst : it.status = some es) :
    updateStatusIf none store t id ns es =
      Except.ok (true, putItem store { it with status := some ns, lastUpdateTime := some t }) := by
  unfold updateStatusIf condUpdateStatus
  rw [hget]
  simp [hst]

theorem updateStatusIf_precondition_failed {store : Store} {id : String}
    {es : SessionStatus}
    (h : ∀ it, getItem store id = some it → it.status ≠ some es)
    (t : Nat) (ns : SessionStatus) :
    updateStatusIf none store t id ns es = Except.ok (false, store) := by
  unfold updateStatusIf condUpdateStatus
  cases hg : getItem store id with
  | none => simp
  | some it =>
    have hne := h it hg
    simp [hne]

theorem updateStatusIf_rethrows {store : Store} (e : DynamoError)
    (he : e.code ≠ "ConditionalCheckFailedException")
    (t : Nat) (id : String) (ns es : SessionStatus) :
    updateStatusIf (some e) store t id ns es = Except.error e := by
  unfold updateStatusIf condUpdateStatus
  simp [he]

theorem finalize_race_general {store : Store} {id : String} {it : Item}
    (hget : getItem store id = some it)
    (hrun : it.status = some SessionStatus.RUNNING)
    (n : SessionStatus) (hn : n ≠ SessionStatus.RUNNING) (t1 : Nat) :
    ∃ s1,
      updateStatusIf none store t1 id n SessionStatus.RUNNING = Except.ok (true, s1) ∧
      getItem s1 id = some { it with status := some n, lastUpdateTime := some t1 } ∧
      ∀ (t : Nat) (y : SessionStatus),
        updateStatusIf none s1 t id y SessionStatus.RUNNING = Except.ok (false, s1) := by
  refine ⟨putItem store { it with status := some n, lastUpdateTime := some t1 },
    updateStatusIf_success hget t1 n SessionStatus.RUNNING hrun, ?_, ?_⟩
  · have hid : it.sessionId = id := sessionId_eq_of_getItem_some hget
    have h := getItem_putItem_self store { it with status := some n, lastUpdateTime := some t1 }
    simpa [hid] using h
  · intro t y
    apply updateStatusIf_precondition_failed
    intro it2 hit2
    have hid : it.sessionId = id := sessionId_eq_of_getItem_some hget
    have h := getItem_putItem_self store { it with status := some n, lastUpdateTime := some t1 }
    simp only [hid] at h hit2
    rw [h] at hit2
    cases hit2
    simp [hn]

/-- C1 — At-most-once finalization: for a session stored with status
`RUNNING`, running `updateStatusIf(id, COMPLETED, RUNNING)` and
`updateStatusIf(id, FAILED, RUNNING)` in either order makes exactly the
first conditional write succeed (`true`); the stored status afterwards is the
winner's new status, and every later `updateStatusIf` call expecting
`RUNNING` returns `false`. -/
theorem updateStatusIf_at_most_once_finalization
    (store : Store) (id : String) (it : Item)
    (hget : getItem store id = some it)
    (hrun : it.status = some SessionStatus.RUNNING)
    (t1 t2 t3 : Nat) (x : SessionStatus) :
    (∃ s1,
      updateStatusIf none store t1 id SessionStatus.COMPLETED SessionStatus.RUNNING =
        Except.ok (true, s1) ∧
      updateStatusIf none s1 t2 id SessionStatus.FAILED SessionStatus.RUNNING =
        Except.ok (false, s1) ∧
      (getItem s1 id).map Item.status = some (some SessionStatus.COMPLETED) ∧
      updateStatusIf none s1 t3 id x SessionStatus.RUNNING = Except.ok (false, s1)) ∧
    (∃ s1,
      updateStatusIf none store t1 id SessionStatus.FAILED SessionStatus.RUNNING =
        Except.ok (true, s1) ∧
      updateStatusIf none s1 t2 id SessionStatus.COMPLETED SessionStatus.RUNNING =
        Except.ok (false, s1) ∧
      (getItem s1 id).map Item.status = some (some SessionStatus.FAILED) ∧
      updateStatusIf none s1 t3 id x SessionStatus.RUNNING = Except.ok (false, s1)) := by
  constructor
  · obtain ⟨s1, hwin, hgi, hall⟩ :=
      finalize_race_general hget hrun SessionStatus.COMPLETED (by simp) t1
    exact ⟨s1, hwin, hall t2 SessionStatus.FAILED, by rw [hgi]; rfl, hall t3 x⟩
  · obtain ⟨s1, hwin, hgi, hall⟩ :=
      finalize_race_general hget hrun SessionStatus.FAILED (by simp) t1
    exact ⟨s1, hwin, hall t2 SessionStatus.COMPLETED, by rw [hgi]; rfl, hall t3 x⟩

/-- Witness for C1 at a concrete one-record store. -/
theorem updateStatusIf_at_most_once_finalization_witness :
    ∃ s1,
      updateStatusIf none [sampleRunningItem] 5 "s1" SessionStatus.COMPLETED
          SessionStatus.RUNNING = Except.ok (true, s1) ∧
      updateStatusIf none s1 6 "s1" SessionStatus.FAILED SessionStatus.RUNNING =
        Except.ok (false, s1) ∧
      (getItem s1 "s1").map Item.status = some (some SessionStatus.COMPLETED) ∧
      updateStatusIf none s1 7 "s1" SessionStatus.CANCELLED SessionStatus.RUNNING =
        Except.ok (false, s1) :=
  (updateStatusIf_at_most_once_finalization [sampleRunningItem] "s1" sampleRunningItem
    rfl rfl 5 6 7 SessionStatus.CANCELLED).1

/-- C2 — `updateStatusIf` return contract: `true` (with the status written)
when the stored status equals `expectedCurrentStatus`; `false` without
throwing when the conditional-write precondition fails (record absent or
status differing); any other backend failure is re-raised unchanged. -/
theorem updateStatusIf_return_contract
    (store : Store) (t : Nat) (id : String) (ns es : SessionStatus) :
    (∀ it, getItem store id = some it → it.status = some es →
      ∃ s1, updateStatusIf none store t id ns es = Except.ok (true, s1) ∧
        getItem s1 id = some { it with status := some ns, lastUpdateTime := some t }) ∧
    ((∀ it, getItem store id = some it → it.status ≠ some es) →
      updateStatusIf none store t id ns es = Except.ok (false, store)) ∧
    (∀ e : DynamoError, e.code ≠ "ConditionalCheckFailedException" →
      updateStatusIf (some e) store t id ns es = Except.error e) := by
  refine ⟨?_, ?_, ?_⟩
  · intro it hget hst
    refine ⟨putItem store { it with status := some ns, lastUpdateTime := some t },
      updateStatusIf_success hget t ns es hst, ?_⟩
    have hid : it.sessionId = id := sessionId_eq_of_getItem_some hget
    have h := getItem_putItem_self store { it with status := some ns, lastUpdateTime := some t }
    simpa [hid] using h
  · intro h
    exact updateStatusIf_precondition_failed h t ns
  · intro e he
    exact updateStatusIf_rethrows e he t id ns es

/-- Witness for C2: success, precondition failure and fault re-raise at
concrete inputs. -/
theorem updateStatusIf_return_contract_witness :
    (∃ s1, updateStatusIf none [sampleRunningItem] 5 "s1" SessionStatus.COMPLETED
        SessionStatus.RUNNING = Except.ok (true, s1) ∧
      getItem s1 "s1" = some { sampleRunningItem with
        status := some SessionStatus.COMPLETED, lastUpdateTime := some 5 }) ∧
    updateStatusIf none [sampleRunningItem] 5 "s1" SessionStatus.COMPLETED
        SessionStatus.PENDING = Except.ok (false, [sampleRunningItem]) ∧
    updateStatusIf (some { code := "ThrottlingException" }) [sampleRunningItem] 5 "s1"
        SessionStatus.COMPLETED SessionStatus.RUNNING =
      Except.error { code := "ThrottlingException" } :=
  ⟨(updateStatusIf_return_contract [sampleRunningItem] 5 "s1" SessionStatus.COMPLETED
      SessionStatus.RUNNING).1 sampleRunningItem rfl rfl,
   (updateStatusIf_return_contract [sampleRunningItem] 5 "s1" SessionStatus.COMPLETED
      SessionStatus.PENDING).2.1
     (fun it h => by
       rw [show getItem [sampleRunningItem] "s1" = some sampleRunningItem from rfl] at h
       cases h
       decide),
   (updateStatusIf_return_contract [sampleRunningItem] 5 "s1" SessionStatus.COMPLETED
      SessionStatus.RUNNING).2.2 { code := "ThrottlingException" } (by decide)⟩

/-- C3 (evidence of the divergence) — the round-trip fails: `saveState`
spreads the metadata fields at the top level of the stored item, while
`restoreState` reads `state.metadata.startTime` on that raw item; the nested
`metadata` attribute is absent, so restore throws a `TypeError` instead of
returning the saved record. -/
theorem restore_after_save_throws_type_error :
    restoreState (saveState [] 1000 "s1" sampleState {}) 2000 "s1" =
      Except.error JsError.typeError := by
  rfl

/-- C4 (evidence of the divergence) — a record saved with `ttl = 0` has
`expiresAt = 1` (already passed at `now = 2000` ms), yet `restoreState`
throws the same `TypeError` before reaching the expiry check, instead of
deleting the record and returning `null`. -/
theorem restore_ttl_zero_throws_type_error :
    (getItem (saveState [] 1000 "s1" sampleState { ttl := some 0 }) "s1").map
        Item.expiresAt = some (some 1) ∧
    restoreState (saveState [] 1000 "s1" sampleState { ttl := some 0 }) 2000 "s1" =
      Except.error JsError.typeError := by
  exact ⟨rfl, rfl⟩

/-- C7 (evidence of the divergence) — `restoreState` does return `null` for
an absent `sessionId`, but for a stored, non-expired `RUNNING` record it
throws a `TypeError` (reading `metadata.startTime` on the flat item) instead
of returning a `RestoredSession` with `resumable = true`. -/
theorem restore_running_record_throws_type_error :
    restoreState [] 1500 "absent" = Except.ok (none, []) ∧
    (getItem sampleStore "s1").map Item.status = some (some SessionStatus.RUNNING) ∧
    restoreState sampleStore 1500 "s1" = Except.error JsError.typeError := by
  exact ⟨rfl, rfl, rfl⟩

/-- C5 (evidence of the divergence) — with `filter.status` supplied together
with a `channelId`, `getPendingSessions` returns the indexed query results
unfiltered (the status branch returns early, skipping the in-memory
`channelId` post-filter): the single returned record has `channelId = "c1"`
although the filter requested `"c2"`. -/
theorem getPendingSessions_status_branch_ignores_channelId :
    getPendingSessions sampleStore 2000
        { userId := some "u1", status := some SessionStatus.RUNNING,
          channelId := some "c2" } =
      Except.ok (sampleStore, [BackendOp.query "UserIndex" "u1" SessionStatus.RUNNING]) ∧
    sampleStore.map Item.channelId = [some "c1"] := by
  exact ⟨rfl, rfl⟩

/-- C6 — Query safety: a filter supplying neither `userId` nor `guildId`
makes `getPendingSessions` return the empty sequence while issuing no
backend request at all (no scan, no query). -/
theorem getPendingSessions_empty_without_user_or_guild
    (store : Store) (nowMs : Nat) (f : PendingSessionsFilter)
    (hu : f.userId = none) (hg : f.guildId = none) :
    getPendingSessions store nowMs f = Except.ok ([], []) := by
  simp [getPendingSessions, hu, hg, jsTruthy]

/-- Witness for C6 on a non-empty store and the empty filter. -/
theorem getPendingSessions_empty_without_user_or_guild_witness :
    ({} : PendingSessionsFilter).userId = none ∧
    ({} : PendingSessionsFilter).guildId = none ∧
    getPendingSessions [sampleRunningItem] 999 {} = Except.ok ([], []) :=
  ⟨rfl, rfl, getPendingSessions_empty_without_user_or_guild [sampleRunningItem] 999 {} rfl rfl⟩

/-- C9 — `updateStatus` upserts: on a `sessionId` with no stored record it
does not fail and creates a bare item holding only the key, the given status
and `lastUpdateTime` (every other attribute absent); in particular calling it
right after `deleteSession` resurrects the id as such a partial record. -/
theorem updateStatus_upserts_bare_record
    (store : Store) (t : Nat) (id : String) (st : SessionStatus) :
    (getItem store id = none →
      updateStatus store t id st =
        putItem store { sessionId := id, status := some st, lastUpdateTime := some t }) ∧
    getItem (updateStatus (deleteSession store id) t id st) id =
      some { sessionId := id, status := some st, lastUpdateTime := some t } := by
  constructor
  · intro h
    unfold updateStatus
    rw [h]
  · have hdel : getItem (deleteSession store id) id = none :=
      getItem_deleteSession_self store id
    unfold updateStatus
    rw [hdel]
    exact getItem_putItem_self (deleteSession store id)
      { sessionId := id, status := some st, lastUpdateTime := some t }

/-- Witness for C9: upsert on the empty store and resurrection after a
delete, at concrete inputs. -/
theorem updateStatus_upserts_bare_record_witness :
    updateStatus [] 5 "s9" SessionStatus.FAILED =
      putItem []
        { sessionId := "s9"
          status := some SessionStatus.FAILED
          lastUpdateTime := some 5 } ∧
    getItem (updateStatus (deleteSession [sampleRunningItem] "s1") 5 "s1"
        SessionStatus.FAILED) "s1" =
      some
        { sessionId := "s1"
          status := some SessionStatus.FAILED
          lastUpdateTime := some 5 } :=
  ⟨(updateStatus_upserts_bare_record [] 5 "s9" SessionStatus.FAILED).1 rfl,
   (updateStatus_upserts_bare_record [sampleRunningItem] 5 "s1" SessionStatus.FAILED).2⟩

theorem foldl_delete_eq_filter (xs : List Item) (s : Store)
    (hids : ∀ x ∈ xs, x.sessionId ≠ "") :
    xs.foldl (fun acc it => if it.sessionId = "" then acc else deleteSession acc it.sessionId) s =
      s.filter (fun a => xs.all (fun x => a.sessionId != x.sessionId)) := by
  induction xs generalizing s with
  | nil => simp
  | cons x xs ih =>
    rw [List.foldl_cons]
    rw [if_neg (hids x (List.mem_cons_self x xs))]
    rw [ih _ (fun y hy => hids y (List.mem_cons_of_mem x hy))]
    unfold deleteSession
    rw [List.filter_filter]
    apply List.filter_congr
    intro a _
    simp [List.all_cons, Bool.and_comm]

/-- C8 — Cleanup correctness: over a well-formed table (unique, non-empty
keys), `cleanupExpiredSessions` returns the number of records with status
`RUNNING` and `expiresAt` strictly before the current epoch second, and the
remaining table consists exactly of the other records, unchanged and in
order.  The partition hypothesis mirrors the claim's setup (every record is
either an expired `RUNNING` one or has its `expiresAt` in the future). -/
theorem cleanupExpiredSessions_correct
    (store : Store) (nowMs : Nat)
    (hnodup : (store.map Item.sessionId).Nodup)
    (hids : ∀ it ∈ store, it.sessionId ≠ "")
    (hsplit : ∀ it ∈ store, isExpiredRunning (nowMs / 1000) it = true ∨
        ∃ e, it.expiresAt = some e ∧ nowMs / 1000 ≤ e) :
    (cleanupExpiredSessions store nowMs).1 =
      (store.filter (isExpiredRunning (nowMs / 1000))).length ∧
    (cleanupExpiredSessions store nowMs).2 =
      store.filter (fun it => !(isExpiredRunning (nowMs / 1000) it)) := by
  constructor
  · rfl
  · show (store.filter (isExpiredRunning (nowMs / 1000))).foldl
        (fun s it => if it.sessionId = "" then s else deleteSession s it.sessionId) store =
      store.filter (fun it => !(isExpiredRunning (nowMs / 1000) it))
    rw [foldl_delete_eq_filter _ _ (fun x hx => hids x (List.mem_filter.mp hx).1)]
    apply List.filter_congr
    intro a ha
    by_cases hq : isExpiredRunning (nowMs / 1000) a = true
    · have hmem : a ∈ store.filter (isExpiredRunning (nowMs / 1000)) :=
        List.mem_filter.mpr ⟨ha, hq⟩
      have hall : (store.filter (isExpiredRunning (nowMs / 1000))).all
          (fun x => a.sessionId != x.sessionId) = false := by
        rw [List.all_eq_false]
        exact ⟨a, hmem, by simp⟩
      rw [hall, hq]
      rfl
    · have hall : (store.filter (isExpiredRunning (nowMs / 1000))).all
          (fun x => a.sessionId != x.sessionId) = true := by
        rw [List.all_eq_true]
        intro x hx
        have hxf := List.mem_filter.mp hx
        have hne : a.sessionId ≠ x.sessionId := by
          intro h
          exact hq ((List.inj_on_of_nodup_map hnodup ha hxf.1 h) ▸ hxf.2)
        simpa using hne
      rw [hall]
      simp [hq]

/-- Witness for C8: one expired `RUNNING` record and one future record;
cleanup reports 1 removal and leaves exactly the future record. -/
theorem cleanupExpiredSessions_correct_witness :
    (cleanupExpiredSessions [expiredRunningItem, futureItem] 20000).1 = 1 ∧
    (cleanupExpiredSessions [expiredRunningItem, futureItem] 20000).2 = [futureItem] := by
  have h := cleanupExpiredSessions_correct [expiredRunningItem, futureItem] 20000
    (by decide) (by decide)
    (fun it hit => by
      rcases List.mem_cons.mp hit with h1 | h1
      · subst h1
        exact Or.inl (by decide)
      · rcases List.mem_cons.mp h1 with h2 | h2
        · subst h2
          exact Or.inr ⟨999999, rfl, by decide⟩
        · cases h2)
  exact ⟨h.1.trans (by decide), h.2.trans (by decide)⟩

theorem mem_queryUserIndex {store : Store} {it : Item} {u : String} {st : SessionStatus}
    (hit : it ∈ store) (h1 : it.userId = some u) (h2 : it.status = some st) :
    it ∈ queryUserIndex store u st :=
  List.mem_filter.mpr ⟨hit, by simp [h1, h2]⟩

theorem mem_queryGuildIndex {store : Store} {it : Item} {g : String} {st : SessionStatus}
    (hit : it ∈ store) (h1 : it.guildId = some g) (h2 : it.status = some st) :
    it ∈ queryGuildIndex store g st :=
  List.mem_filter.mpr ⟨hit, by simp [h1, h2]⟩

theorem getPendingSessions_user_status (store : Store) (nowMs : Nat)
    (f : PendingSessionsFilter) (hu : jsTruthy f.userId = true)
    {st : SessionStatus} (hst : f.status = some st) :
    getPendingSessions store nowMs f =
      Except.ok (queryUserIndex store (f.userId.getD "") st,
        [BackendOp.query "UserIndex" (f.userId.getD "") st]) := by
  unfold getPendingSessions
  rw [if_neg (by simp [hu])]
  rw [hst]
  simp [hu]

theorem getPendingSessions_guild_status (store : Store) (nowMs : Nat)
    (f : PendingSessionsFilter) (hu : jsTruthy f.userId = false)
    (hg : jsTruthy f.guildId = true) {st : SessionStatus} (hst : f.status = some st) :
    getPendingSessions store nowMs f =
      Except.ok (queryGuildIndex store (f.guildId.getD "") st,
        [BackendOp.query "GuildIndex" (f.guildId.getD "") st]) := by
  unfold getPendingSessions
  rw [if_neg (by simp [hg])]
  rw [hst]
  simp [hu, hg]

theorem jsTruthy_none : jsTruthy none = false := rfl

theorem getPendingSessions_user_nostatus (store : Store) (nowMs : Nat)
    (f : PendingSessionsFilter) (hu : jsTruthy f.userId = true)
    (hst : f.status = none) (hch : f.channelId = none) :
    getPendingSessions store nowMs f =
      Except.ok (queryUserIndex store (f.userId.getD "") SessionStatus.RUNNING,
        [BackendOp.query "UserIndex" (f.userId.getD "") SessionStatus.RUNNING]) := by
  unfold getPendingSessions
  rw [if_neg (by simp [hu])]
  rw [hst]
  simp [hu, hch, jsTruthy_none]

theorem getPendingSessions_guild_nostatus (store : Store) (nowMs : Nat)
    (f : PendingSessionsFilter) (hu : jsTruthy f.userId = false)
    (hg : jsTruthy f.guildId = true) (hst : f.status = none) (hch : f.channelId = none) :
    getPendingSessions store nowMs f =
      Except.ok (queryGuildIndex store (f.guildId.getD "") SessionStatus.RUNNING,
        [BackendOp.query "GuildIndex" (f.guildId.getD "") SessionStatus.RUNNING]) := by
  unfold getPendingSessions
  rw [if_neg (by simp [hg])]
  rw [hst]
  simp [hu, hg, hch, jsTruthy_none]

/-- C10 — `getPendingSessions` applies no `expiresAt` condition, in the
query or in memory: a stored record matching the key condition of the issued
index query is returned even when its `expiresAt` has already passed.  (The
hypothesis on `channelId` keeps the call on a path that returns a sequence:
when no `status` is supplied and a `channelId` is, the in-memory post-filter
faults on stored items — see the C5 evidence.) -/
theorem getPendingSessions_ignores_expiry
    (store : Store) (nowMs : Nat) (f : PendingSessionsFilter)
    (hkey : jsTruthy f.userId = true ∨ jsTruthy f.guildId = true)
    (hch : f.status.isSome ∨ f.channelId = none)
    (it : Item) (hit : it ∈ store) (hm : keyMatches f it)
    (e : Nat) (he : it.expiresAt = some e) (hpast : e * 1000 < nowMs) :
    ∃ items ops, getPendingSessions store nowMs f = Except.ok (items, ops) ∧
      it ∈ items := by
  have hrun : it.status = some (f.status.getD SessionStatus.RUNNING) := by
    unfold keyMatches at hm
    split at hm
    · exact hm.2
    · exact hm.2
  by_cases hu : jsTruthy f.userId = true
  · obtain ⟨u, huu⟩ : ∃ u, f.userId = some u := by
      cases hx : f.userId with
      | none => rw [hx] at hu; simp [jsTruthy] at hu
      | some u => exact ⟨u, rfl⟩
    have hmu : it.userId = f.userId := by
      unfold keyMatches at hm
      rw [if_pos hu] at hm
      exact hm.1
    cases hst : f.status with
    | some st =>
      refine ⟨_, _, getPendingSessions_user_status store nowMs f hu hst, ?_⟩
      apply mem_queryUserIndex hit
      · simp [hmu, huu]
      · rw [hst] at hrun
        simpa using hrun
    | none =>
      have hchn : f.channelId = none := by
        rcases hch with h | h
        · rw [hst] at h; simp at h
        · exact h
      refine ⟨_, _, getPendingSessions_user_nostatus store nowMs f hu hst hchn, ?_⟩
      apply mem_queryUserIndex hit
      · simp [hmu, huu]
      · rw [hst] at hrun
        simpa using hrun
  · have hu' : jsTruthy f.userId = false := by simpa using hu
    have hg : jsTruthy f.guildId = true := by
      rcases hkey with h | h
      · exact absurd h hu
      · exact h
    obtain ⟨g, hgg⟩ : ∃ g, f.guildId = some g := by
      cases hx : f.guildId with
      | none => rw [hx] at hg; simp [jsTruthy] at hg
      | some g => exact ⟨g, rfl⟩
    have hmg : it.guildId = f.guildId := by
      unfold keyMatches at hm
      rw [if_neg (by simp [hu'])] at hm
      exact hm.1
    cases hst : f.status with
    | some st =>
      refine ⟨_, _, getPendingSessions_guild_status store nowMs f hu' hg hst, ?_⟩
      apply mem_queryGuildIndex hit
      · simp [hmg, hgg]
      · rw [hst] at hrun
        simpa using hrun
    | none =>
      have hchn : f.channelId = none := by
        rcases hch with h | h
        · rw [hst] at h; simp at h
        · exact h
      refine ⟨_, _, getPendingSessions_guild_nostatus store nowMs f hu' hg hst hchn, ?_⟩
      apply mem_queryGuildIndex hit
      · simp [hmg, hgg]
      · rw [hst] at hrun
        simpa using hrun

/-- Witness for C10: a record whose `expiresAt` (epoch second 10) passed long
before the query time (20000 ms) is still returned by `getPendingSessions`. -/
theorem getPendingSessions_ignores_expiry_witness :
    ∃ items ops,
      getPendingSessions [expiredRunningItem] 20000 { userId := some "u1" } =
        Except.ok (items, ops) ∧ expiredRunningItem ∈ items :=
  getPendingSessions_ignores_expiry [expiredRunningItem] 20000 { userId := some "u1" }
    (Or.inl (by decide)) (Or.inr rfl) expiredRunningItem
    (List.mem_cons_self expiredRunningItem [])
    (by simp [keyMatches, jsTruthy, expiredRunningItem])
    10 rfl (by decide)

end SessionManager
